import Mathlib

/-!
Verification of the Signal & Position Lifecycle Engine of the ib-gateway-bot
repository. Three variants of the engine appear in the sources:

* `src/bot.py` — streaming: one state dict per symbol, updated on every
  real-time bar (`Bot` namespace);
* `src/bot_paper_test.py` — polling with crossing-based signals
  (`Paper` namespace);
* `src/v1_code.py` — polling with level-based signals and position
  reconciliation (`V1` namespace).

Prices and quantities are modelled as rationals; Python `None` becomes
`Option`; a Python exception escaping a handler is modelled as an `Option`
result of `none`.
-/

/-- Order side, the IB actions BUY and SELL (executions report BOT/SLD). -/
inductive Side
  | buy
  | sell
deriving DecidableEq

/-- ib_insync order types used or intended by the sources: market, limit,
stop. -/
inductive OrderType
  | MKT
  | LMT
  | STP
deriving DecidableEq

/-- An ib_insync `Order`, restricted to the fields the sources set: order
type, action, quantity, stop trigger price (`auxPrice`) and limit price.
`none` marks a field the constructor leaves unset. -/
structure Order where
  orderType : OrderType
  action : Side
  totalQuantity : ℚ
  auxPrice : Option ℚ
  lmtPrice : Option ℚ
deriving DecidableEq

/-- ib_insync `StopOrder(action, qty, stopPrice)`: orderType STP, the stop
price in auxPrice. -/
def StopOrder (a : Side) (q px : ℚ) : Order :=
  ⟨OrderType.STP, a, q, some px, none⟩

/-- ib_insync `MarketOrder(action, qty)`: orderType MKT, no prices. -/
def MarketOrder (a : Side) (q : ℚ) : Order :=
  ⟨OrderType.MKT, a, q, none, none⟩

/-- ib_insync `MarketOrder(action, qty, lmtPrice=px)`: extra kwargs are
stored on the Order object, but the orderType remains MKT. This is exactly
what both `set_stop_target` variants build for their "target" order. -/
def MarketOrderLmt (a : Side) (q px : ℚ) : Order :=
  ⟨OrderType.MKT, a, q, none, some px⟩

/-- A price bar; only the fields the engine reads (high, low, close) are
kept. -/
structure Bar where
  high : ℚ
  low : ℚ
  close : ℚ
deriving DecidableEq

/-- Python `list[-n:]`: the last `n` elements (the whole list when shorter). -/
def lastN (n : ℕ) (xs : List α) : List α := xs.drop (xs.length - n)

/-- Successive differences of adjacent elements (pandas `Series.diff`
without its leading NaN): `diffsOf [a, b, c] = [b - a, c - b]`. -/
def diffsOf : List ℚ → List ℚ
  | [] => []
  | [_] => []
  | a :: b :: t => (b - a) :: diffsOf (b :: t)

/-- Python `collections.deque(maxlen=m).append`: drop from the front once the
deque is full. -/
def dequeAppend (m : ℕ) (xs : List ℚ) (c : ℚ) : List ℚ :=
  let ys := xs ++ [c]
  if m < ys.length then ys.drop (ys.length - m) else ys

/-- pandas `df.iloc[-2]`: the second-to-last element; `none` models the
IndexError raised when there are fewer than two rows. -/
def secondLast : List α → Option α
  | [] => none
  | [_] => none
  | [a, _] => some a
  | _ :: b :: c :: t => secondLast (b :: c :: t)

/-- Sum of the positive deltas: a delta `d` contributes `max d 0`, which is
`d` for the gains and `0` otherwise, matching both the explicit
gains-list of src/bot.py and `delta.where(delta > 0, 0)` of the pandas
variants. -/
def gainsSum (deltas : List ℚ) : ℚ := (deltas.map (fun d => max d 0)).sum

/-- Sum of the magnitudes of the non-positive deltas (`-d` for `d ≤ 0`,
else `0`): matches `losses.append(-d)` in src/bot.py (a zero delta appends
a zero) and `-delta.where(delta < 0, 0)` in the pandas variants. -/
def lossesSum (deltas : List ℚ) : ℚ := (deltas.map (fun d => max (-d) 0)).sum

/-- RSI of src/bot.py lines 69-78: averages over `period` of gains and
losses; `rsi = 100` when the average loss is zero, otherwise the
`100 - 100/(1 + avg_gain/avg_loss)` formula. -/
def rsiOf (deltas : List ℚ) (period : ℚ) : ℚ :=
  let avg_gain := gainsSum deltas / period
  let avg_loss := lossesSum deltas / period
  if avg_loss = 0 then 100 else 100 - 100 / (1 + avg_gain / avg_loss)

/-- RSI of one row of src/v1_code.py calculate_indicators lines 83-90:
`rs = avg_gain/avg_loss; RSI = 100 - 100/(1 + rs)` in IEEE float
arithmetic followed by `fillna(50)`. When avg_loss = 0 and avg_gain > 0,
numpy yields rs = +inf and RSI = 100 - 100/inf = 100; when both averages
are 0, rs = 0/0 = NaN, RSI = NaN, and the fillna turns it into 50;
otherwise the finite formula applies. -/
def rsiV1 (deltas : List ℚ) (period : ℚ) : ℚ :=
  let avg_gain := gainsSum deltas / period
  let avg_loss := lossesSum deltas / period
  if avg_loss = 0 then (if avg_gain = 0 then 50 else 100)
  else 100 - 100 / (1 + avg_gain / avg_loss)

/-- RSI of one row of src/bot_paper_test.py calculate_indicators lines
70-76, which has no fillna: `none` stands for the NaN produced when both
averages are zero (every comparison against a NaN is False). -/
def rsiPaperOf (deltas : List ℚ) (period : ℚ) : Option ℚ :=
  let avg_gain := gainsSum deltas / period
  let avg_loss := lossesSum deltas / period
  if avg_loss = 0 then (if avg_gain = 0 then none else some 100)
  else some (100 - 100 / (1 + avg_gain / avg_loss))

/-- One pandas `ewm(adjust=False)` update with smoothing factor `α`:
`y_t = x_t * α + y_(t-1) * (1 - α)`. -/
def ewmStep (α y x : ℚ) : ℚ := x * α + y * (1 - α)

/-- The tail of the `ewm(adjust=False)` column after a value `y`. -/
def ewmFrom (α y : ℚ) : List ℚ → List ℚ
  | [] => []
  | x :: xs => ewmStep α y x :: ewmFrom α (ewmStep α y x) xs

/-- pandas `Series.ewm(span=s, adjust=False).mean()` with `α = 2/(s+1)`:
the first output equals the first input, and each later output follows the
recurrence `ewmStep`. -/
def ewmVals (α : ℚ) : List ℚ → List ℚ
  | [] => []
  | x :: xs => x :: ewmFrom α x xs

/-- pandas `df.iloc[-1]` of a column; the default is never reached on the
length-guarded paths that use it. -/
def lastOf (xs : List ℚ) : ℚ := xs.getLast?.getD 0

/-- pandas `df.iloc[-2]` of a column; same remark on the default. -/
def prevOf (xs : List ℚ) : ℚ := (secondLast xs).getD 0

/-- Comparison `rsi > t` of a possibly-NaN RSI: False on NaN. -/
def optGt (o : Option ℚ) (t : ℚ) : Bool :=
  match o with
  | none => false
  | some v => decide (t < v)

/-- Comparison `rsi < t` of a possibly-NaN RSI: False on NaN. -/
def optLt (o : Option ℚ) (t : ℚ) : Bool :=
  match o with
  | none => false
  | some v => decide (v < t)

/-- Signal classification of src/bot.py lines 84-92, as a function of the
previous EMA difference, the current difference and the current RSI: the
crossing test includes the boundary (≤ 0 / ≥ 0 on the previous
difference). -/
def detectBot (prev_diff diff rsi : ℚ) : Option Side :=
  if diff > 0 ∧ prev_diff ≤ 0 ∧ rsi > 50 then some Side.buy
  else if diff < 0 ∧ prev_diff ≥ 0 ∧ rsi < 50 then some Side.sell
  else none

/-- Signal classification of src/bot_paper_test.py lines 92-99: the
comparison on the previous bar is strict in both directions
(`prev['EMA_Fast'] < prev['EMA_Slow']` for bullish, `>` for bearish). -/
def detectPaper (prevFast prevSlow fast slow rsi : ℚ) : Option Side :=
  if (prevFast < prevSlow ∧ fast > slow) ∧ rsi > 50 then some Side.buy
  else if (prevFast > prevSlow ∧ fast < slow) ∧ rsi < 50 then some Side.sell
  else none

/-- The tracked contract of src/v1_code.py (`Stock(TICKER, EXCHANGE,
CURRENCY, primaryExchange='NASDAQ')`). -/
structure ContractSpec where
  conId : ℕ
  symbol : String
  currency : String
deriving DecidableEq

/-- One entry of `ib.positions()`: the external position snapshot. -/
structure ExtPosition where
  conId : ℕ
  symbol : String
  currency : String
  primaryExchange : String
  position : ℚ
deriving DecidableEq

/-- The match test of src/v1_code.py sync_position lines 96-100: same conId,
or same symbol and currency with primaryExchange 'NASDAQ'. -/
def posMatches (c : ContractSpec) (p : ExtPosition) : Bool :=
  p.conId == c.conId ||
    (p.symbol == c.symbol && p.currency == c.currency &&
      p.primaryExchange == "NASDAQ")

/-- src/v1_code.py sync_position lines 93-105: the first snapshot entry that
matches sets the position; when none matches the position is set to 0. The
prior local position is never read. -/
def sync_position (c : ContractSpec) (snapshot : List ExtPosition) : ℚ :=
  match snapshot.find? (posMatches c) with
  | some p => p.position
  | none => 0

/-- The mutable trader fields the engine reads and writes: `self.position`,
`self.stop_order`, `self.target_order`. -/
structure TraderState where
  position : ℚ
  stop_order : Option Order
  target_order : Option Order
deriving DecidableEq

/-- An observable interaction with the order gateway. -/
inductive GwAction
  | submit (o : Order)
  | cancel (o : Order)
deriving DecidableEq

namespace Bot

def FAST_EMA : ℕ := 9

def SLOW_EMA : ℕ := 20

def RSI_PERIOD : ℕ := 14

def QTY : ℚ := 100

/-- Smoothing factor `kf = 2/(FAST_EMA + 1)` of src/bot.py line 62. -/
def kf : ℚ := 2 / ((FAST_EMA : ℚ) + 1)

/-- Smoothing factor `ks = 2/(SLOW_EMA + 1)` of src/bot.py line 63. -/
def ks : ℚ := 2 / ((SLOW_EMA : ℚ) + 1)

/-- The per-symbol state dict of src/bot.py: closes deque, the two EMAs,
the previous EMA difference and the ordered flag. -/
structure BotState where
  closes : List ℚ
  ema_fast : Option ℚ
  ema_slow : Option ℚ
  prev_diff : Option ℚ
  ordered : Bool
deriving DecidableEq

/-- The fresh state built in nextValidId (src/bot.py lines 28-34). -/
def initState : BotState := ⟨[], none, none, none, false⟩

/-- RSI over the last `RSI_PERIOD` deltas of the retained closes
(src/bot.py lines 69-78). -/
def rsiOfCloses (closes : List ℚ) : ℚ :=
  rsiOf (diffsOf (lastN (RSI_PERIOD + 1) closes)) (RSI_PERIOD : ℚ)

/-- src/bot.py realTimeBar lines 47-92 for one symbol: returns the updated
state and the market orders placed (side and quantity). Bars for an
already-ordered symbol return immediately; short windows only append the
close; otherwise the EMAs are seeded (from the last FAST_EMA and the last
SLOW_EMA closes) or updated, the RSI computed, and a crossover signal
places one order and sets the ordered flag. -/
def realTimeBar (s : BotState) (close : ℚ) : BotState × List (Side × ℚ) :=
  if s.ordered then (s, [])
  else
    let closes := dequeAppend (SLOW_EMA + 1) s.closes close
    if closes.length < SLOW_EMA then
      (⟨closes, s.ema_fast, s.ema_slow, s.prev_diff, s.ordered⟩, [])
    else
      let ema_fast :=
        match s.ema_fast with
        | none => (lastN FAST_EMA closes).sum / (FAST_EMA : ℚ)
        | some f => close * kf + f * (1 - kf)
      let ema_slow :=
        match s.ema_fast with
        | none => (lastN SLOW_EMA closes).sum / (SLOW_EMA : ℚ)
        | some _ => close * ks + (s.ema_slow.getD 0) * (1 - ks)
      let diff := ema_fast - ema_slow
      let rsi := rsiOfCloses closes
      match s.prev_diff with
      | none => (⟨closes, some ema_fast, some ema_slow, some diff, s.ordered⟩, [])
      | some pd =>
        if diff > 0 ∧ pd ≤ 0 ∧ rsi > 50 then
          (⟨closes, some ema_fast, some ema_slow, some diff, true⟩,
            [(Side.buy, QTY)])
        else if diff < 0 ∧ pd ≥ 0 ∧ rsi < 50 then
          (⟨closes, some ema_fast, some ema_slow, some diff, true⟩,
            [(Side.sell, QTY)])
        else
          (⟨closes, some ema_fast, some ema_slow, some diff, s.ordered⟩, [])

/-- A run of realTimeBar over a sequence of bars, accumulating the orders. -/
def runBars : BotState → List ℚ → BotState × List (Side × ℚ)
  | s, [] => (s, [])
  | s, c :: rest =>
    let r := realTimeBar s c
    let r2 := runBars r.1 rest
    (r2.1, r.2 ++ r2.2)

end Bot

namespace V1

def EMA_FAST : ℕ := 5

def EMA_SLOW : ℕ := 10

def RSI_PERIOD : ℕ := 14

def ORDER_SIZE : ℚ := 10

/-- pandas ewm span=EMA_FAST smoothing factor. -/
def kF : ℚ := 2 / ((EMA_FAST : ℚ) + 1)

/-- pandas ewm span=EMA_SLOW smoothing factor. -/
def kS : ℚ := 2 / ((EMA_SLOW : ℚ) + 1)

/-- The RSI value of the last row of the indicator frame (rolling mean of
the last RSI_PERIOD deltas, with the fillna(50)). -/
def rsiOfCloses (closes : List ℚ) : ℚ :=
  rsiV1 (lastN RSI_PERIOD (diffsOf closes)) (RSI_PERIOD : ℚ)

/-- src/v1_code.py set_stop_target lines 147-171: on an empty frame do
nothing; read `prev = df.iloc[-2]` (the result is `none` for the
IndexError that raises on a one-row frame); place a stop and a "target"
order sized `abs(self.position)` on the opposite side — for a long
position stop at prev.low and target at prev.high, for a short position
stop at prev.high and target at prev.low — storing both references; with
a flat position place nothing and leave the references untouched. -/
def set_stop_target (st : TraderState) (window : List Bar) :
    Option (TraderState × List Order) :=
  if window.isEmpty then some (st, [])
  else
    match secondLast window with
    | none => none
    | some prev =>
      if st.position > 0 then
        let stop_ord := StopOrder Side.sell |st.position| prev.low
        let target_ord := MarketOrderLmt Side.sell |st.position| prev.high
        some (⟨st.position, some stop_ord, some target_ord⟩, [stop_ord, target_ord])
      else if st.position < 0 then
        let stop_ord := StopOrder Side.buy |st.position| prev.high
        let target_ord := MarketOrderLmt Side.buy |st.position| prev.low
        some (⟨st.position, some stop_ord, some target_ord⟩, [stop_ord, target_ord])
      else some (st, [])

/-- src/v1_code.py manage_position lines 173-179: cancel the stored stop and
target references when set, then run set_stop_target on the fresh window. -/
def manage_position (st : TraderState) (window : List Bar) :
    Option (TraderState × List GwAction) :=
  let cancels := (st.stop_order.toList ++ st.target_order.toList).map GwAction.cancel
  match set_stop_target st window with
  | none => none
  | some (st2, subs) => some (st2, cancels ++ subs.map GwAction.submit)

/-- src/v1_code.py on_exec_details lines 50-57 for a fill on the tracked
contract: side 'BOT' adds the executed shares to the position, any other
side ('SLD') subtracts them, then set_stop_target runs on a fresh window. -/
def on_exec_details (st : TraderState) (side : String) (shares : ℚ)
    (window : List Bar) : Option (TraderState × List GwAction) :=
  let qty := if side = "BOT" then shares else -shares
  let st1 : TraderState := ⟨st.position + qty, st.stop_order, st.target_order⟩
  match set_stop_target st1 window with
  | none => none
  | some (st2, subs) => some (st2, subs.map GwAction.submit)

/-- src/v1_code.py on_filled lines 141-145: the position is overwritten with
`fill.filled` for a BUY and `-fill.filled` for a SELL (the prior quantity
is discarded), then set_stop_target runs on a fresh window. -/
def on_filled (st : TraderState) (action : Side) (filled : ℚ)
    (window : List Bar) : Option (TraderState × List GwAction) :=
  let st1 : TraderState :=
    ⟨if action = Side.buy then filled else -filled, st.stop_order, st.target_order⟩
  match set_stop_target st1 window with
  | none => none
  | some (st2, subs) => some (st2, subs.map GwAction.submit)

/-- src/v1_code.py evaluate lines 107-133: reconcile the position from the
external snapshot, fetch a window; when it is empty or shorter than
`max(EMA_SLOW, RSI_PERIOD) + 2` do nothing more; otherwise compute the
latest EMAs and RSI and, when flat, place a BUY market order on the
level-based bullish condition (`EMA_Fast > EMA_Slow and RSI > 50`), a
SELL on the bearish one, or nothing; when not flat, re-manage the
existing position. -/
def evaluate (c : ContractSpec) (st : TraderState) (snapshot : List ExtPosition)
    (window : List Bar) : Option (TraderState × List GwAction) :=
  let st1 : TraderState := ⟨sync_position c snapshot, st.stop_order, st.target_order⟩
  if window.length < max EMA_SLOW RSI_PERIOD + 2 then some (st1, [])
  else
    let closes := window.map Bar.close
    let ef := ewmVals kF closes
    let es := ewmVals kS closes
    let rsi := rsiOfCloses closes
    if st1.position = 0 then
      if lastOf ef > lastOf es ∧ rsi > 50 then
        some (st1, [GwAction.submit (MarketOrder Side.buy ORDER_SIZE)])
      else if lastOf ef < lastOf es ∧ rsi < 50 then
        some (st1, [GwAction.submit (MarketOrder Side.sell ORDER_SIZE)])
      else some (st1, [])
    else manage_position st1 window

end V1

namespace Paper

def EMA_FAST : ℕ := 10

def EMA_SLOW : ℕ := 20

def RSI_PERIOD : ℕ := 14

def ORDER_SIZE : ℚ := 10

/-- pandas ewm span=EMA_FAST smoothing factor. -/
def kF : ℚ := 2 / ((EMA_FAST : ℚ) + 1)

/-- pandas ewm span=EMA_SLOW smoothing factor. -/
def kS : ℚ := 2 / ((EMA_SLOW : ℚ) + 1)

/-- The RSI value of the last row (no fillna: `none` is the NaN case). -/
def rsiOfCloses (closes : List ℚ) : Option ℚ :=
  rsiPaperOf (lastN RSI_PERIOD (diffsOf closes)) (RSI_PERIOD : ℚ)

/-- src/bot_paper_test.py set_stop_target lines 117-134: as the V1 variant
but without a flat branch — any non-positive position takes the short
branch (BUY stop at prev.high, BUY "target" at prev.low). -/
def set_stop_target (st : TraderState) (window : List Bar) :
    Option (TraderState × List Order) :=
  if window.isEmpty then some (st, [])
  else
    match secondLast window with
    | none => none
    | some prev =>
      if st.position > 0 then
        let stop_ord := StopOrder Side.sell |st.position| prev.low
        let target_ord := MarketOrderLmt Side.sell |st.position| prev.high
        some (⟨st.position, some stop_ord, some target_ord⟩, [stop_ord, target_ord])
      else
        let stop_ord := StopOrder Side.buy |st.position| prev.high
        let target_ord := MarketOrderLmt Side.buy |st.position| prev.low
        some (⟨st.position, some stop_ord, some target_ord⟩, [stop_ord, target_ord])

/-- src/bot_paper_test.py manage_position lines 136-142. -/
def manage_position (st : TraderState) (window : List Bar) :
    Option (TraderState × List GwAction) :=
  let cancels := (st.stop_order.toList ++ st.target_order.toList).map GwAction.cancel
  match set_stop_target st window with
  | none => none
  | some (st2, subs) => some (st2, cancels ++ subs.map GwAction.submit)

/-- src/bot_paper_test.py on_filled lines 111-115: the position is
overwritten with ±fill.filled, then set_stop_target runs. -/
def on_filled (st : TraderState) (action : Side) (filled : ℚ)
    (window : List Bar) : Option (TraderState × List GwAction) :=
  let st1 : TraderState :=
    ⟨if action = Side.buy then filled else -filled, st.stop_order, st.target_order⟩
  match set_stop_target st1 window with
  | none => none
  | some (st2, subs) => some (st2, subs.map GwAction.submit)

/-- src/bot_paper_test.py evaluate lines 79-103: when the window is empty or
shorter than `max(EMA_SLOW, RSI_PERIOD) + 2` do nothing; otherwise, when
flat, place a BUY on the crossing-based bullish condition with RSI > 50,
a SELL on the bearish one with RSI < 50, else nothing; when not flat,
re-manage the position. -/
def evaluate (st : TraderState) (window : List Bar) :
    Option (TraderState × List GwAction) :=
  if window.length < max EMA_SLOW RSI_PERIOD + 2 then some (st, [])
  else
    let closes := window.map Bar.close
    let ef := ewmVals kF closes
    let es := ewmVals kS closes
    let rsi := rsiOfCloses closes
    if st.position = 0 then
      if (prevOf ef < prevOf es ∧ lastOf ef > lastOf es) ∧ optGt rsi 50 = true then
        some (st, [GwAction.submit (MarketOrder Side.buy ORDER_SIZE)])
      else if (prevOf ef > prevOf es ∧ lastOf ef < lastOf es) ∧ optLt rsi 50 = true then
        some (st, [GwAction.submit (MarketOrder Side.sell ORDER_SIZE)])
      else some (st, [])
    else manage_position st window

end Paper

/-! ## Helper lemmas -/

theorem gainsSum_nonneg (d : List ℚ) : 0 ≤ gainsSum d := by
  unfold gainsSum
  apply List.sum_nonneg
  intro x hx
  simp only [List.mem_map] at hx
  obtain ⟨a, _, rfl⟩ := hx
  exact le_max_right a 0

theorem lossesSum_nonneg (d : List ℚ) : 0 ≤ lossesSum d := by
  unfold lossesSum
  apply List.sum_nonneg
  intro x hx
  simp only [List.mem_map] at hx
  obtain ⟨a, _, rfl⟩ := hx
  exact le_max_right (-a) 0

theorem rsiOf_def (d : List ℚ) (p : ℚ) :
    rsiOf d p =
      if lossesSum d / p = 0 then 100
      else 100 - 100 / (1 + (gainsSum d / p) / (lossesSum d / p)) := rfl

theorem rsiV1_def (d : List ℚ) (p : ℚ) :
    rsiV1 d p =
      if lossesSum d / p = 0 then (if gainsSum d / p = 0 then 50 else 100)
      else 100 - 100 / (1 + (gainsSum d / p) / (lossesSum d / p)) := rfl

theorem rsi_formula_bounds (g l : ℚ) (hg : 0 ≤ g) (hl : 0 < l) :
    0 ≤ 100 - 100 / (1 + g / l) ∧ 100 - 100 / (1 + g / l) ≤ 100 := by
  have hrs : 0 ≤ g / l := div_nonneg hg hl.le
  have h1 : (0 : ℚ) < 1 + g / l := by linarith
  have h2 : 100 / (1 + g / l) ≤ 100 := div_le_self (by norm_num) (by linarith)
  have h3 : 0 ≤ 100 / (1 + g / l) := div_nonneg (by norm_num) h1.le
  constructor <;> linarith

theorem rsiOf_bounds (d : List ℚ) (p : ℚ) (hp : 0 ≤ p) :
    0 ≤ rsiOf d p ∧ rsiOf d p ≤ 100 := by
  rw [rsiOf_def]
  by_cases h : lossesSum d / p = 0
  · rw [if_pos h]; norm_num
  · rw [if_neg h]
    have hl : 0 < lossesSum d / p :=
      lt_of_le_of_ne (div_nonneg (lossesSum_nonneg d) hp) (Ne.symm h)
    exact rsi_formula_bounds _ _ (div_nonneg (gainsSum_nonneg d) hp) hl

theorem rsiV1_bounds (d : List ℚ) (p : ℚ) (hp : 0 ≤ p) :
    0 ≤ rsiV1 d p ∧ rsiV1 d p ≤ 100 := by
  rw [rsiV1_def]
  by_cases h : lossesSum d / p = 0
  · rw [if_pos h]
    split_ifs <;> norm_num
  · rw [if_neg h]
    have hl : 0 < lossesSum d / p :=
      lt_of_le_of_ne (div_nonneg (lossesSum_nonneg d) hp) (Ne.symm h)
    exact rsi_formula_bounds _ _ (div_nonneg (gainsSum_nonneg d) hp) hl

theorem secondLast_isSome (a b : α) (t : List α) :
    (secondLast (a :: b :: t)).isSome := by
  induction t generalizing a b with
  | nil => rfl
  | cons c t ih => exact ih b c

theorem v1_set_stop_target_keeps_position (st : TraderState) (w : List Bar)
    (st2 : TraderState) (subs : List Order)
    (h : V1.set_stop_target st w = some (st2, subs)) :
    st2.position = st.position := by
  unfold V1.set_stop_target at h
  by_cases he : w.isEmpty
  · simp [he] at h
    rw [← h.1]
  · rw [if_neg he] at h
    cases hx : secondLast w with
    | none => rw [hx] at h; simp at h
    | some prev =>
      rw [hx] at h
      split_ifs at h <;> simp_all <;> rw [← h.1]

theorem paper_set_stop_target_keeps_position (st : TraderState) (w : List Bar)
    (st2 : TraderState) (subs : List Order)
    (h : Paper.set_stop_target st w = some (st2, subs)) :
    st2.position = st.position := by
  unfold Paper.set_stop_target at h
  by_cases he : w.isEmpty
  · simp [he] at h
    rw [← h.1]
  · rw [if_neg he] at h
    cases hx : secondLast w with
    | none => rw [hx] at h; simp at h
    | some prev =>
      rw [hx] at h
      split_ifs at h <;> simp_all <;> rw [← h.1]

/-! ## Claims -/

/-- C1 (amended): the streaming detector of src/bot.py fires BUY exactly when
the EMA difference crosses from ≤ 0 to > 0 with RSI > 50, SELL exactly on
the symmetric condition, and otherwise reports no signal; the polling
detector of src/bot_paper_test.py compares the previous bar strictly
(previous fast EMA < previous slow EMA for BUY, > for SELL). -/
theorem claim_C1_detect :
    (∀ pd d r : ℚ, detectBot pd d r = some Side.buy ↔ (d > 0 ∧ pd ≤ 0 ∧ r > 50)) ∧
    (∀ pd d r : ℚ, detectBot pd d r = some Side.sell ↔ (d < 0 ∧ pd ≥ 0 ∧ r < 50)) ∧
    (∀ pd d r : ℚ, detectBot pd d r = none ↔
      (¬(d > 0 ∧ pd ≤ 0 ∧ r > 50) ∧ ¬(d < 0 ∧ pd ≥ 0 ∧ r < 50))) ∧
    (∀ pf ps f sl r : ℚ,
      detectPaper pf ps f sl r = some Side.buy ↔ ((pf < ps ∧ f > sl) ∧ r > 50)) ∧
    (∀ pf ps f sl r : ℚ,
      detectPaper pf ps f sl r = some Side.sell ↔ ((pf > ps ∧ f < sl) ∧ r < 50)) := by
  refine ⟨?_, ?_, ?_, ?_, ?_⟩
  · intro pd d r
    by_cases h1 : d > 0 ∧ pd ≤ 0 ∧ r > 50
    · simp [detectBot, h1]
    · by_cases h2 : d < 0 ∧ pd ≥ 0 ∧ r < 50 <;> simp [detectBot, h1, h2]
  · intro pd d r
    by_cases h2 : d < 0 ∧ pd ≥ 0 ∧ r < 50
    · have h1 : ¬(d > 0 ∧ pd ≤ 0 ∧ r > 50) := by
        rintro ⟨hk, -, -⟩
        linarith [h2.1]
      simp [detectBot, h1, h2]
    · by_cases h1 : d > 0 ∧ pd ≤ 0 ∧ r > 50 <;> simp [detectBot, h1, h2]
  · intro pd d r
    by_cases h1 : d > 0 ∧ pd ≤ 0 ∧ r > 50
    · simp [detectBot, h1]
    · by_cases h2 : d < 0 ∧ pd ≥ 0 ∧ r < 50 <;> simp [detectBot, h1, h2]
  · intro pf ps f sl r
    by_cases h1 : (pf < ps ∧ f > sl) ∧ r > 50
    · simp [detectPaper, h1]
    · by_cases h2 : (pf > ps ∧ f < sl) ∧ r < 50 <;> simp [detectPaper, h1, h2]
  · intro pf ps f sl r
    by_cases h2 : (pf > ps ∧ f < sl) ∧ r < 50
    · have h1 : ¬((pf < ps ∧ f > sl) ∧ r > 50) := by
        rintro ⟨⟨hk, -⟩, -⟩
        linarith [h2.1.1]
      simp [detectPaper, h1, h2]
    · by_cases h1 : (pf < ps ∧ f > sl) ∧ r > 50 <;> simp [detectPaper, h1, h2]

/-- C1 counterexample: with a previous difference of exactly 0 (previous fast
EMA = previous slow EMA = 1), a current difference of 1 > 0 and a current RSI
of 60 > 50, the src/bot_paper_test.py detector produces no signal, though the
claim requires a BUY entry. -/
theorem claim_C1_cx :
    ((1 : ℚ) - 1 ≤ 0 ∧ (2 : ℚ) - 1 > 0 ∧ (60 : ℚ) > 50) ∧
      detectPaper 1 1 2 1 60 = none := by
  with_unfolding_all decide

/-- C1 witness: both detectors fire BUY on a strict upward crossing with
RSI above 50. -/
theorem claim_C1_wit :
    detectBot 0 1 60 = some Side.buy ∧ detectPaper 0 1 2 1 60 = some Side.buy :=
  ⟨(claim_C1_detect.1 0 1 60).mpr (by norm_num),
    (claim_C1_detect.2.2.2.1 0 1 2 1 60).mpr (by norm_num)⟩

/-- C2 (code bug): on a long position of 10 after an entry fill, with the
most recent completed bar prior to the fill having low 148 and high 151,
src/v1_code.py set_stop_target submits a SELL stop at 148 sized 10 — as the
claim states — but the "target" order it submits is an ib_insync
MarketOrder (orderType 'MKT') merely carrying lmtPrice = 151 as a stray
attribute: it is not a limit order. -/
theorem claim_C2_market_target :
    V1.set_stop_target ⟨10, none, none⟩ [⟨151, 148, 150⟩, ⟨152, 149, 151⟩] =
      some (⟨10, some (StopOrder Side.sell 10 148),
          some (MarketOrderLmt Side.sell 10 151)⟩,
        [StopOrder Side.sell 10 148, MarketOrderLmt Side.sell 10 151]) ∧
    (StopOrder Side.sell 10 148).orderType = OrderType.STP ∧
    (StopOrder Side.sell 10 148).action = Side.sell ∧
    (StopOrder Side.sell 10 148).totalQuantity = 10 ∧
    (StopOrder Side.sell 10 148).auxPrice = some 148 ∧
    (MarketOrderLmt Side.sell 10 151).orderType = OrderType.MKT ∧
    (MarketOrderLmt Side.sell 10 151).orderType ≠ OrderType.LMT ∧
    (MarketOrderLmt Side.sell 10 151).action = Side.sell ∧
    (MarketOrderLmt Side.sell 10 151).totalQuantity = 10 ∧
    (MarketOrderLmt Side.sell 10 151).lmtPrice = some 151 := by
  with_unfolding_all decide

/-- C4 (amended): every RSI the code computes lies in [0, 100]; the
streaming variant yields RSI = 100 whenever the loss sum over its window is
zero; the rolling variant of src/v1_code.py yields 100 when the loss sum is
zero and the gain sum is positive, but yields the neutral fill value 50 when
both sums are zero (rs = 0/0 = NaN there, caught by fillna(50)). -/
theorem claim_C4_rsi :
    (∀ closes : List ℚ, 0 ≤ Bot.rsiOfCloses closes ∧ Bot.rsiOfCloses closes ≤ 100) ∧
    (∀ closes : List ℚ, 0 ≤ V1.rsiOfCloses closes ∧ V1.rsiOfCloses closes ≤ 100) ∧
    (∀ closes : List ℚ,
      lossesSum (diffsOf (lastN (Bot.RSI_PERIOD + 1) closes)) = 0 →
        Bot.rsiOfCloses closes = 100) ∧
    (∀ deltas : List ℚ, lossesSum deltas = 0 → gainsSum deltas ≠ 0 →
      rsiV1 deltas (V1.RSI_PERIOD : ℚ) = 100) ∧
    (∀ deltas : List ℚ, lossesSum deltas = 0 → gainsSum deltas = 0 →
      rsiV1 deltas (V1.RSI_PERIOD : ℚ) = 50) := by
  refine ⟨?_, ?_, ?_, ?_, ?_⟩
  · intro closes
    exact rsiOf_bounds _ _ (by norm_num [Bot.RSI_PERIOD])
  · intro closes
    exact rsiV1_bounds _ _ (by norm_num [V1.RSI_PERIOD])
  · intro closes h
    unfold Bot.rsiOfCloses
    rw [rsiOf_def, if_pos (by rw [h]; norm_num)]
  · intro deltas h hg
    rw [rsiV1_def, if_pos (by rw [h]; norm_num),
      if_neg (by simp [hg, V1.RSI_PERIOD])]
  · intro deltas h hg
    rw [rsiV1_def, if_pos (by rw [h]; norm_num), if_pos (by rw [hg]; norm_num)]

/-- C4 counterexample: a constant close window (16 closes of 100) makes all
deltas zero, so the average loss is exactly zero, yet the rolling RSI of
src/v1_code.py is 50 — not 100 as the claim requires. -/
theorem claim_C4_cx :
    lossesSum (lastN 14 (diffsOf (List.replicate 16 (100 : ℚ)))) = 0 ∧
    V1.rsiOfCloses (List.replicate 16 (100 : ℚ)) = 50 ∧ ((50 : ℚ) ≠ 100) := by
  with_unfolding_all decide

/-- C4 witness: a strictly rising window gives the streaming RSI 100, and
the rolling variant gives 100 on all-positive deltas and 50 on all-zero
deltas. -/
theorem claim_C4_wit :
    Bot.rsiOfCloses ((List.range 16).map (fun n => (n : ℚ))) = 100 ∧
    rsiV1 (List.replicate 14 1) (V1.RSI_PERIOD : ℚ) = 100 ∧
    rsiV1 (List.replicate 14 0) (V1.RSI_PERIOD : ℚ) = 50 :=
  ⟨claim_C4_rsi.2.2.1 _ (by with_unfolding_all decide),
    claim_C4_rsi.2.2.2.1 _ (by with_unfolding_all decide) (by with_unfolding_all decide),
    claim_C4_rsi.2.2.2.2 _ (by with_unfolding_all decide) (by with_unfolding_all decide)⟩

/-- C10: with a flat (zero) tracked position, src/v1_code.py
set_stop_target submits no orders and leaves the stored stop-order and
target-order references exactly as they were (the 1-row window, on which
pandas iloc[-2] raises before reaching the position test, is excluded). -/
theorem claim_C10_flat_noop (st : TraderState) (window : List Bar)
    (h0 : st.position = 0) (h1 : window.length ≠ 1) :
    V1.set_stop_target st window = some (st, []) := by
  match window with
  | [] => rfl
  | [b] => exact absurd rfl h1
  | b1 :: b2 :: rest =>
    obtain ⟨x, hx⟩ := Option.isSome_iff_exists.mp (secondLast_isSome b1 b2 rest)
    simp [V1.set_stop_target, hx, h0]

/-- C10 witness: a flat state with both bracket references set, against a
two-bar window, is returned unchanged with no orders. -/
theorem claim_C10_wit :
    V1.set_stop_target
        ⟨0, some (StopOrder Side.sell 10 99), some (MarketOrderLmt Side.sell 10 101)⟩
        [⟨151, 148, 150⟩, ⟨152, 149, 151⟩] =
      some (⟨0, some (StopOrder Side.sell 10 99),
        some (MarketOrderLmt Side.sell 10 101)⟩, []) :=
  claim_C10_flat_noop _ _ rfl (by decide)

theorem V1.manage_position_position (st : TraderState) (w : List Bar)
    (st2 : TraderState) (acts : List GwAction)
    (h : V1.manage_position st w = some (st2, acts)) :
    st2.position = st.position := by
  unfold V1.manage_position at h
  cases hs : V1.set_stop_target st w with
  | none => rw [hs] at h; simp at h
  | some r =>
    obtain ⟨st3, subs⟩ := r
    rw [hs] at h
    simp only [Option.some.injEq, Prod.mk.injEq] at h
    rw [← h.1]
    exact v1_set_stop_target_keeps_position st w st3 subs hs

/-- C3: reconciliation is authoritative. Whatever the prior local state,
after src/v1_code.py evaluate runs, the returned position equals the
externally reported value: the first snapshot entry matching the tracked
contract when one exists, and 0 when the instrument is absent from the
snapshot. -/
theorem claim_C3_reconcile :
    (∀ (c : ContractSpec) (st : TraderState) (snapshot : List ExtPosition)
        (window : List Bar) (st2 : TraderState) (acts : List GwAction),
      V1.evaluate c st snapshot window = some (st2, acts) →
        st2.position = sync_position c snapshot) ∧
    (∀ (c : ContractSpec) (snapshot : List ExtPosition) (p : ExtPosition),
      snapshot.find? (posMatches c) = some p →
        sync_position c snapshot = p.position) ∧
    (∀ (c : ContractSpec) (snapshot : List ExtPosition),
      (∃ p ∈ snapshot, posMatches c p = true) →
        ∃ p ∈ snapshot, posMatches c p = true ∧
          sync_position c snapshot = p.position) ∧
    (∀ (c : ContractSpec) (snapshot : List ExtPosition),
      (∀ p ∈ snapshot, posMatches c p = false) →
        sync_position c snapshot = 0) := by
  refine ⟨?_, ?_, ?_, ?_⟩
  · intro c st snapshot window st2 acts h
    simp only [V1.evaluate] at h
    split_ifs at h with hw hz hb hb2
    · simp only [Option.some.injEq, Prod.mk.injEq] at h
      rw [← h.1]
    · simp only [Option.some.injEq, Prod.mk.injEq] at h
      rw [← h.1]
    · simp only [Option.some.injEq, Prod.mk.injEq] at h
      rw [← h.1]
    · simp only [Option.some.injEq, Prod.mk.injEq] at h
      rw [← h.1]
    · exact V1.manage_position_position _ _ _ _ h
  · intro c snapshot p h
    unfold sync_position
    rw [h]
  · intro c snapshot hex
    have hsome : (snapshot.find? (posMatches c)).isSome := by
      rw [List.find?_isSome]
      obtain ⟨p, hp, hm⟩ := hex
      exact ⟨p, hp, hm⟩
    obtain ⟨q, hq⟩ := Option.isSome_iff_exists.mp hsome
    refine ⟨q, List.mem_of_find?_eq_some hq, List.find?_some hq, ?_⟩
    unfold sync_position
    rw [hq]
  · intro c snapshot h
    unfold sync_position
    rw [List.find?_eq_none.mpr (fun p hp => by simp [h p hp])]

/-- C3 witness: a matching snapshot entry sets the position to its reported
42; an empty snapshot sets it to 0. -/
theorem claim_C3_wit :
    sync_position ⟨7, "AAPL", "USD"⟩ [⟨7, "AAPL", "USD", "NASDAQ", 42⟩] = 42 ∧
    sync_position ⟨7, "AAPL", "USD"⟩ [] = 0 :=
  ⟨claim_C3_reconcile.2.1 _ _ ⟨7, "AAPL", "USD", "NASDAQ", 42⟩ (by rfl),
    claim_C3_reconcile.2.2.2 _ _ (by simp)⟩

/-- C7 (amended): the execution-details handler of src/v1_code.py increments
the signed position by the executed shares on side 'BOT' and decrements it
on 'SLD', starting from the prior local quantity; the filled callbacks of
src/v1_code.py and src/bot_paper_test.py instead overwrite the position
with +fill.filled (BUY) or -fill.filled (SELL), discarding the prior
quantity. -/
theorem claim_C7_apply_fill :
    (∀ (st : TraderState) (side : String) (shares : ℚ) (window : List Bar)
        (st2 : TraderState) (acts : List GwAction),
      V1.on_exec_details st side shares window = some (st2, acts) →
        st2.position = st.position + (if side = "BOT" then shares else -shares)) ∧
    (∀ (st : TraderState) (a : Side) (filled : ℚ) (window : List Bar)
        (st2 : TraderState) (acts : List GwAction),
      V1.on_filled st a filled window = some (st2, acts) →
        st2.position = (if a = Side.buy then filled else -filled)) ∧
    (∀ (st : TraderState) (a : Side) (filled : ℚ) (window : List Bar)
        (st2 : TraderState) (acts : List GwAction),
      Paper.on_filled st a filled window = some (st2, acts) →
        st2.position = (if a = Side.buy then filled else -filled)) := by
  refine ⟨?_, ?_, ?_⟩
  · intro st side shares window st2 acts h
    simp only [V1.on_exec_details] at h
    cases hs : V1.set_stop_target
        ⟨st.position + (if side = "BOT" then shares else -shares),
          st.stop_order, st.target_order⟩ window with
    | none => rw [hs] at h; simp at h
    | some r =>
      obtain ⟨st3, subs⟩ := r
      rw [hs] at h
      simp only [Option.some.injEq, Prod.mk.injEq] at h
      rw [← h.1]
      exact v1_set_stop_target_keeps_position _ _ _ _ hs
  · intro st a filled window st2 acts h
    simp only [V1.on_filled] at h
    cases hs : V1.set_stop_target
        ⟨if a = Side.buy then filled else -filled,
          st.stop_order, st.target_order⟩ window with
    | none => rw [hs] at h; simp at h
    | some r =>
      obtain ⟨st3, subs⟩ := r
      rw [hs] at h
      simp only [Option.some.injEq, Prod.mk.injEq] at h
      rw [← h.1]
      exact v1_set_stop_target_keeps_position _ _ _ _ hs
  · intro st a filled window st2 acts h
    simp only [Paper.on_filled] at h
    cases hs : Paper.set_stop_target
        ⟨if a = Side.buy then filled else -filled,
          st.stop_order, st.target_order⟩ window with
    | none => rw [hs] at h; simp at h
    | some r =>
      obtain ⟨st3, subs⟩ := r
      rw [hs] at h
      simp only [Option.some.injEq, Prod.mk.injEq] at h
      rw [← h.1]
      exact paper_set_stop_target_keeps_position _ _ _ _ hs

/-- C7 counterexample: with a prior local position of 5, a BUY fill of 10
makes the src/v1_code.py filled callback set the position to 10, not to the
incremented 5 + 10 the claim requires. -/
theorem claim_C7_cx :
    (V1.on_filled ⟨5, none, none⟩ Side.buy 10
        [⟨151, 148, 150⟩, ⟨152, 149, 151⟩]).map (fun r => r.1.position) =
      some 10 ∧ ((10 : ℚ) ≠ 5 + 10) := by
  with_unfolding_all decide

/-- C7 witness: from a flat prior state, a BOT execution of 10 shares leaves
the additive handler at position 0 + 10. -/
theorem claim_C7_wit :
    (⟨10, some (StopOrder Side.sell 10 148),
        some (MarketOrderLmt Side.sell 10 151)⟩ : TraderState).position =
      (⟨0, none, none⟩ : TraderState).position +
        (if ("BOT" : String) = "BOT" then (10 : ℚ) else -10) :=
  claim_C7_apply_fill.1 ⟨0, none, none⟩ "BOT" 10
    [⟨151, 148, 150⟩, ⟨152, 149, 151⟩]
    ⟨10, some (StopOrder Side.sell 10 148), some (MarketOrderLmt Side.sell 10 151)⟩
    [GwAction.submit (StopOrder Side.sell 10 148),
      GwAction.submit (MarketOrderLmt Side.sell 10 151)]
    (by with_unfolding_all decide)

/-- C8: a fetched window that is empty or shorter than
`max(EMA_SLOW, RSI_PERIOD) + 2` makes both polling evaluate variants skip
the cycle: no signal logic runs and no order or cancel action is produced
(src/v1_code.py still reconciles the position first, which is not an order
action; an empty fetch satisfies the same length test). -/
theorem claim_C8_short_window :
    (∀ (c : ContractSpec) (st : TraderState) (snapshot : List ExtPosition)
        (window : List Bar),
      window.length < max V1.EMA_SLOW V1.RSI_PERIOD + 2 →
        V1.evaluate c st snapshot window =
          some (⟨sync_position c snapshot, st.stop_order, st.target_order⟩, [])) ∧
    (∀ (st : TraderState) (window : List Bar),
      window.length < max Paper.EMA_SLOW Paper.RSI_PERIOD + 2 →
        Paper.evaluate st window = some (st, [])) := by
  constructor
  · intro c st snapshot window h
    simp [V1.evaluate, h]
  · intro st window h
    simp [Paper.evaluate, h]

/-- C8 witness: the empty window (the empty-fetch case) is skipped by both
variants. -/
theorem claim_C8_wit :
    V1.evaluate ⟨1, "AAPL", "USD"⟩ ⟨5, none, none⟩ [] [] =
      some (⟨sync_position ⟨1, "AAPL", "USD"⟩ [], none, none⟩, []) ∧
    Paper.evaluate ⟨5, none, none⟩ [] = some (⟨5, none, none⟩, []) :=
  ⟨claim_C8_short_window.1 _ _ _ _ (by decide),
    claim_C8_short_window.2 _ _ (by decide)⟩

/-- C9: in src/bot.py realTimeBar, an emitted order always leaves the
symbol's ordered flag set, and once the flag is set every later bar for
that symbol is ignored entirely — the state (closes window, EMAs,
prev_diff) is untouched and no further order is ever emitted, over any
remaining bar sequence. -/
theorem claim_C9_ordered_halts :
    (∀ (s : Bot.BotState) (c : ℚ),
      (Bot.realTimeBar s c).2 ≠ [] → (Bot.realTimeBar s c).1.ordered = true) ∧
    (∀ (s : Bot.BotState) (bars : List ℚ),
      s.ordered = true → Bot.runBars s bars = (s, [])) := by
  constructor
  · intro s c h
    cases hb : s.ordered with
    | true => simp [Bot.realTimeBar, hb]
    | false =>
      simp only [Bot.realTimeBar, hb] at h ⊢
      by_cases hl : (dequeAppend (Bot.SLOW_EMA + 1) s.closes c).length < Bot.SLOW_EMA
      · simp [hl] at h
      · simp only [hl] at h ⊢
        cases hp : s.prev_diff with
        | none => simp [hp] at h
        | some pd =>
          simp only [hp] at h ⊢
          split_ifs at h ⊢ <;> simp_all
  · intro s bars h
    induction bars with
    | nil => rfl
    | cons c rest ih =>
      unfold Bot.runBars
      simp [Bot.realTimeBar, h, ih]

/-- C9 witness: a bar that fires a BUY sets the flag; a state with the flag
set is left untouched by any further bars, with no orders. -/
theorem claim_C9_wit :
    (Bot.realTimeBar
        ⟨List.replicate 20 (100 : ℚ), some 100, some 100, some 0, false⟩
        200).1.ordered = true ∧
    Bot.runBars ⟨[], none, none, none, true⟩ [1, 2, 3] =
      (⟨[], none, none, none, true⟩, []) :=
  ⟨claim_C9_ordered_halts.1 _ 200 (by with_unfolding_all decide),
    claim_C9_ordered_halts.2 _ [1, 2, 3] rfl⟩

/-- C6 (code bug): when the position returns to zero the bracket is NOT
cancelled or cleared. Reconciliation path: with a local position of +10 and
an active stop/target pair, an external snapshot without the instrument
overwrites the position to 0, and src/v1_code.py evaluate routes to the
entry branch — the stored references stay set and no cancel (indeed no
action at all) is issued. Fill path: a SLD execution of 10 shares brings
the position from +10 to 0, and set_stop_target returns through its flat
branch — again no cancel, references unchanged. -/
theorem claim_C6_stale_bracket :
    V1.evaluate ⟨1, "AAPL", "USD"⟩
        ⟨10, some (StopOrder Side.sell 10 99), some (MarketOrderLmt Side.sell 10 101)⟩
        [] (List.replicate 16 ⟨101, 99, 100⟩) =
      some (⟨0, some (StopOrder Side.sell 10 99),
        some (MarketOrderLmt Side.sell 10 101)⟩, []) ∧
    V1.on_exec_details
        ⟨10, some (StopOrder Side.sell 10 99), some (MarketOrderLmt Side.sell 10 101)⟩
        "SLD" 10 (List.replicate 16 ⟨101, 99, 100⟩) =
      some (⟨0, some (StopOrder Side.sell 10 99),
        some (MarketOrderLmt Side.sell 10 101)⟩, []) := by
  with_unfolding_all decide

theorem ewmFrom_getD (α y : ℚ) (l : List ℚ) (i : ℕ) (h : i + 1 < l.length) :
    (ewmFrom α y l).getD (i + 1) 0 =
      ewmStep α ((ewmFrom α y l).getD i 0) (l.getD (i + 1) 0) := by
  induction l generalizing y i with
  | nil => simp at h
  | cons x xs ih =>
    cases i with
    | zero =>
      cases xs with
      | nil => simp at h
      | cons z zs => simp [ewmFrom]
    | succ j =>
      simp only [ewmFrom, List.getD_cons_succ]
      exact ih (ewmStep α y x) j (by simpa using h)

theorem ewmVals_getD_zero (α : ℚ) (l : List ℚ) :
    (ewmVals α l).getD 0 0 = l.getD 0 0 := by
  cases l <;> simp [ewmVals]

theorem ewmVals_getD_succ (α : ℚ) (l : List ℚ) (i : ℕ) (h : i + 1 < l.length) :
    (ewmVals α l).getD (i + 1) 0 =
      ewmStep α ((ewmVals α l).getD i 0) (l.getD (i + 1) 0) := by
  cases l with
  | nil => simp at h
  | cons x xs =>
    cases i with
    | zero =>
      cases xs with
      | nil => simp at h
      | cons z zs => simp [ewmVals, ewmFrom]
    | succ j =>
      simp only [ewmVals, List.getD_cons_succ]
      exact ewmFrom_getD α x xs j (by simpa using h)

theorem Bot.realTimeBar_seed (s : Bot.BotState) (c : ℚ)
    (h0 : s.ordered = false) (h1 : s.ema_fast = none)
    (h2 : Bot.SLOW_EMA ≤ (dequeAppend (Bot.SLOW_EMA + 1) s.closes c).length) :
    (Bot.realTimeBar s c).1.ema_fast =
      some ((lastN Bot.FAST_EMA (dequeAppend (Bot.SLOW_EMA + 1) s.closes c)).sum /
        (Bot.FAST_EMA : ℚ)) ∧
    (Bot.realTimeBar s c).1.ema_slow =
      some ((lastN Bot.SLOW_EMA (dequeAppend (Bot.SLOW_EMA + 1) s.closes c)).sum /
        (Bot.SLOW_EMA : ℚ)) := by
  simp only [Bot.realTimeBar, h0, h1, Bool.false_eq_true, if_false]
  rw [if_neg (Nat.not_lt.mpr h2)]
  cases hp : s.prev_diff with
  | none => exact ⟨rfl, rfl⟩
  | some pd =>
    dsimp only
    split_ifs <;> exact ⟨rfl, rfl⟩

theorem Bot.realTimeBar_update (s : Bot.BotState) (c f sl : ℚ)
    (h0 : s.ordered = false) (h1 : s.ema_fast = some f) (h1s : s.ema_slow = some sl)
    (h2 : Bot.SLOW_EMA ≤ (dequeAppend (Bot.SLOW_EMA + 1) s.closes c).length) :
    (Bot.realTimeBar s c).1.ema_fast = some (c * Bot.kf + f * (1 - Bot.kf)) ∧
    (Bot.realTimeBar s c).1.ema_slow = some (c * Bot.ks + sl * (1 - Bot.ks)) := by
  simp only [Bot.realTimeBar, h0, h1, h1s, Option.getD_some, Bool.false_eq_true, if_false]
  rw [if_neg (Nat.not_lt.mpr h2)]
  cases hp : s.prev_diff with
  | none => exact ⟨rfl, rfl⟩
  | some pd =>
    dsimp only
    split_ifs <;> exact ⟨rfl, rfl⟩

/-- C5 (amended): in the streaming variant both EMAs are seeded at the
moment the retained window first reaches SLOW_EMA closes — the fast EMA as
the simple average of the last FAST_EMA of those closes, the slow EMA as
the simple average of the last SLOW_EMA — and afterwards each close updates
both by `ema_new = close*k + ema_old*(1-k)` with `k = 2/(period+1)`. In the
polling variants pandas `ewm(span, adjust=False)` seeds each EMA with the
first close of the fetched window (no simple-average seeding) and applies
the same recurrence to every later close. -/
theorem claim_C5_ema :
    (∀ (s : Bot.BotState) (c : ℚ), s.ordered = false → s.ema_fast = none →
      Bot.SLOW_EMA ≤ (dequeAppend (Bot.SLOW_EMA + 1) s.closes c).length →
      (Bot.realTimeBar s c).1.ema_fast =
        some ((lastN Bot.FAST_EMA (dequeAppend (Bot.SLOW_EMA + 1) s.closes c)).sum /
          (Bot.FAST_EMA : ℚ)) ∧
      (Bot.realTimeBar s c).1.ema_slow =
        some ((lastN Bot.SLOW_EMA (dequeAppend (Bot.SLOW_EMA + 1) s.closes c)).sum /
          (Bot.SLOW_EMA : ℚ))) ∧
    (∀ (s : Bot.BotState) (c f sl : ℚ), s.ordered = false → s.ema_fast = some f →
      s.ema_slow = some sl →
      Bot.SLOW_EMA ≤ (dequeAppend (Bot.SLOW_EMA + 1) s.closes c).length →
      (Bot.realTimeBar s c).1.ema_fast = some (c * Bot.kf + f * (1 - Bot.kf)) ∧
      (Bot.realTimeBar s c).1.ema_slow = some (c * Bot.ks + sl * (1 - Bot.ks))) ∧
    (∀ (α : ℚ) (l : List ℚ), (ewmVals α l).getD 0 0 = l.getD 0 0) ∧
    (∀ (α : ℚ) (l : List ℚ) (i : ℕ), i + 1 < l.length →
      (ewmVals α l).getD (i + 1) 0 =
        ewmStep α ((ewmVals α l).getD i 0) (l.getD (i + 1) 0)) :=
  ⟨Bot.realTimeBar_seed, Bot.realTimeBar_update, ewmVals_getD_zero, ewmVals_getD_succ⟩

/-- C5 counterexample: against the claim that each EMA is seeded with the
simple average of the first `period` closes the moment the window reaches
`period` closes. Feed src/bot.py the closes 0,0,...,0 (11 times) then
1,...,1 (9 times), fast period 9: after 9 closes the fast EMA is still
absent (claim: seeded then), and when it is finally seeded at 20 closes it
equals 1, the average of the last 9 closes, not 0, the average of the first
9. -/
theorem claim_C5_cx :
    (Bot.runBars Bot.initState (List.replicate 9 (1 : ℚ))).1.ema_fast = none ∧
    (Bot.runBars Bot.initState
        (List.replicate 11 (0 : ℚ) ++ List.replicate 9 1)).1.ema_fast = some 1 ∧
    ((List.replicate 11 (0 : ℚ) ++ List.replicate 9 1).take 9).sum / 9 = 0 ∧
    some (1 : ℚ) ≠ some (0 : ℚ) := by
  with_unfolding_all decide

/-- C5 witness: the seeding equation at a window that just reached 20
closes, and the ewm recurrence at index 1 of a 3-close window. -/
theorem claim_C5_wit :
    (Bot.realTimeBar ⟨List.replicate 19 (2 : ℚ), none, none, none, false⟩ 2).1.ema_fast =
      some ((lastN Bot.FAST_EMA
        (dequeAppend (Bot.SLOW_EMA + 1) (List.replicate 19 (2 : ℚ)) 2)).sum /
          (Bot.FAST_EMA : ℚ)) ∧
    (ewmVals (1 / 2) [1, 2, 3]).getD 1 0 =
      ewmStep (1 / 2) ((ewmVals (1 / 2) [1, 2, 3]).getD 0 0)
        (([1, 2, 3] : List ℚ).getD 1 0) :=
  ⟨(claim_C5_ema.1 _ 2 rfl rfl (by with_unfolding_all decide)).1,
    claim_C5_ema.2.2.2 (1 / 2) [1, 2, 3] 0 (by decide)⟩
